import Mathlib

/-!
Shallow embedding of the `spectevol` package (files
`spectevol/spectral_indices.py` and `spectevol/spectral_processing.py`)
and proofs of the specified properties.

Numeric modelling: reflectance values are rationals.  IEEE-754 special
values, which the numpy/pandas code produces on empty means, negative
radicands and division by zero, are modelled by the type `FV` below
(a finite rational, a signed infinity, or NaN); overflow of finite
values to infinity and signed zeros are not modelled, since no claim
depends on them.
-/

namespace Spectevol

/-- A floating-point value as the numpy/pandas code observes it:
a finite value (idealised as a rational), a signed infinity, or NaN. -/
inductive FV where
  | fin (q : ℚ)
  | pinf
  | ninf
  | nan
deriving DecidableEq, Repr

namespace FV

/-- IEEE addition on the float model (overflow to infinity not modelled). -/
def add : FV → FV → FV
  | .nan, _ => .nan
  | _, .nan => .nan
  | .fin a, .fin b => .fin (a + b)
  | .pinf, .ninf => .nan
  | .ninf, .pinf => .nan
  | .pinf, _ => .pinf
  | _, .pinf => .pinf
  | .ninf, _ => .ninf
  | _, .ninf => .ninf

/-- IEEE negation on the float model. -/
def neg : FV → FV
  | .fin a => .fin (-a)
  | .pinf => .ninf
  | .ninf => .pinf
  | .nan => .nan

/-- IEEE multiplication on the float model. -/
def mul : FV → FV → FV
  | .nan, _ => .nan
  | _, .nan => .nan
  | .fin a, .fin b => .fin (a * b)
  | .fin a, .pinf => if a = 0 then .nan else if 0 < a then .pinf else .ninf
  | .pinf, .fin a => if a = 0 then .nan else if 0 < a then .pinf else .ninf
  | .fin a, .ninf => if a = 0 then .nan else if 0 < a then .ninf else .pinf
  | .ninf, .fin a => if a = 0 then .nan else if 0 < a then .ninf else .pinf
  | .pinf, .pinf => .pinf
  | .ninf, .ninf => .pinf
  | .pinf, .ninf => .ninf
  | .ninf, .pinf => .ninf

/-- IEEE division on the float model.  `x / 0` follows the sign of the
numerator (signed zeros are not modelled); `0 / 0` and `inf / inf` are NaN.
numpy emits a runtime warning in these cases but never raises. -/
def div : FV → FV → FV
  | .nan, _ => .nan
  | _, .nan => .nan
  | .fin a, .fin b =>
      if b = 0 then (if a = 0 then .nan else if 0 < a then .pinf else .ninf)
      else .fin (a / b)
  | .fin _, .pinf => .fin 0
  | .fin _, .ninf => .fin 0
  | .pinf, .fin b => if 0 ≤ b then .pinf else .ninf
  | .ninf, .fin b => if 0 ≤ b then .ninf else .pinf
  | .pinf, .pinf => .nan
  | .pinf, .ninf => .nan
  | .ninf, .pinf => .nan
  | .ninf, .ninf => .nan

/-- IEEE square root on the float model (`np.sqrt`): a negative argument
yields NaN (numpy emits a warning, not an exception).  For a nonnegative
rational the IEEE result is a correctly rounded finite value; `Rat.sqrt`
serves as the finite rational stand-in (exact whenever the argument is a
perfect rational square; no claim depends on the inexact cases). -/
def sqrtv : FV → FV
  | .nan => .nan
  | .ninf => .nan
  | .pinf => .pinf
  | .fin a => if a < 0 then .nan else .fin (Rat.sqrt a)

/-- Whether the value is finite (neither infinite nor NaN). -/
def isFinite : FV → Bool
  | .fin _ => true
  | _ => false

instance : Add FV := ⟨FV.add⟩
instance : Neg FV := ⟨FV.neg⟩
instance : Sub FV := ⟨fun a b => FV.add a (FV.neg b)⟩
instance : Mul FV := ⟨FV.mul⟩
instance : Div FV := ⟨FV.div⟩

@[simp] theorem fin_add_fin (a b : ℚ) : (FV.fin a) + (FV.fin b) = FV.fin (a + b) := rfl

@[simp] theorem fin_sub_fin (a b : ℚ) : (FV.fin a) - (FV.fin b) = FV.fin (a + -b) := rfl

@[simp] theorem fin_mul_fin (a b : ℚ) : (FV.fin a) * (FV.fin b) = FV.fin (a * b) := rfl

@[simp] theorem add_nan (x : FV) : x + FV.nan = FV.nan := by cases x <;> rfl

@[simp] theorem nan_add (x : FV) : FV.nan + x = FV.nan := by cases x <;> rfl

@[simp] theorem sub_nan (x : FV) : x - FV.nan = FV.nan := by cases x <;> rfl

@[simp] theorem nan_div (x : FV) : FV.nan / x = FV.nan := by cases x <;> rfl

@[simp] theorem nan_mul (x : FV) : FV.nan * x = FV.nan := by cases x <;> rfl

theorem fin_div_fin (a b : ℚ) (hb : b ≠ 0) :
    (FV.fin a) / (FV.fin b) = FV.fin (a / b) := by
  show FV.div _ _ = _
  simp [FV.div, hb]

end FV

/-- A band of a sensor: a closed wavelength interval (the tuple values of
the Python `sensors` dict) or a single discrete wavelength (the plain
integers used for Sentinel-2). -/
inductive BandDef where
  | interval (low high : ℕ)
  | discrete (w : ℕ)
deriving DecidableEq, Repr

/-- The band table of one sensor: band name paired with its definition,
in the insertion order of the Python dict. -/
abbrev Bands := List (String × BandDef)

/-- The `sensors` dictionary of `SpectralIndices.get_sensor_bands`,
transcribed verbatim from the source. -/
def sensorsTable : List (String × Bands) :=
  [("general",
     [("blue", .interval 450 520), ("green", .interval 521 600),
      ("red", .interval 601 690), ("nir", .interval 700 800)]),
   ("landsat-8",
     [("aerosol", .interval 435 451), ("blue", .interval 452 512),
      ("green", .interval 533 590), ("red", .interval 636 673),
      ("nir", .interval 851 879), ("swir1", .interval 1566 1651),
      ("swir2", .interval 2107 2294), ("cirrus", .interval 1363 1384)]),
   ("landsat-9",
     [("aerosol", .interval 435 451), ("blue", .interval 452 512),
      ("green", .interval 533 590), ("red", .interval 636 673),
      ("nir", .interval 851 879), ("swir1", .interval 1566 1651),
      ("swir2", .interval 2107 2294), ("cirrus", .interval 1363 1384)]),
   ("landsat-7",
     [("blue", .interval 450 515), ("green", .interval 525 605),
      ("red", .interval 630 690), ("nir", .interval 775 900),
      ("swir1", .interval 1550 1750), ("swir2", .interval 2090 2350),
      ("pan", .interval 520 900)]),
   ("sentinel-2",
     [("aerosol", .discrete 443), ("blue", .discrete 490),
      ("green", .discrete 560), ("red", .discrete 665),
      ("red-edge", .discrete 705), ("nir", .discrete 842),
      ("nira", .discrete 865), ("nir1", .discrete 740),
      ("nir2", .discrete 783), ("water_vapour", .discrete 945),
      ("cirrus", .discrete 1375), ("swir1", .discrete 1610),
      ("swir2", .discrete 2190)]),
   ("planet",
     [("coastal", .interval 431 452), ("blue", .interval 465 515),
      ("green1", .interval 513 549), ("green", .interval 547 583),
      ("yellow", .interval 600 620), ("red", .interval 650 680),
      ("red-edge", .interval 697 713), ("nir", .interval 845 885)])]

/-- Midpoint computation of `get_centerband` for the non-Sentinel-2 branch:
`int((wavelength[0] + wavelength[1]) / 2)`.  Python truncates the float
quotient toward zero, which for the nonnegative wavelengths of the catalog
is the floor, i.e. natural division by 2 (sums are far below 2^53, so the
float halving is exact).  The `discrete` arm never fires for the catalog's
non-Sentinel-2 sensors (all their bands are intervals; Python would raise
a TypeError on an int there). -/
def midpoint : BandDef → ℕ
  | .interval lo hi => (lo + hi) / 2
  | .discrete w => w

/-- Value copied by `get_centerband` in the Sentinel-2 branch
(`{band: wavelength ...}`, an identity copy of the dict).  The `interval`
arm never fires: every Sentinel-2 band is discrete. -/
def discreteVal : BandDef → ℕ
  | .discrete w => w
  | .interval lo _ => lo

/-- Embedding of `SpectralIndices.get_centerband`: for Sentinel-2 an identity copy of
the band dict, otherwise the truncated midpoint of every band interval. -/
def get_centerband (sensor : String) (bands : Bands) : List (String × ℕ) :=
  if sensor = "sentinel-2" then
    bands.map (fun p => (p.1, discreteVal p.2))
  else
    bands.map (fun p => (p.1, midpoint p.2))

/-- The constructed `SpectralIndices` object: the fields assigned by
`__init__` after validation. -/
structure SpectralIndices where
  sensor : String
  method : String
  bands : Bands
  centerbands : List (String × ℕ)
deriving DecidableEq, Repr

/-- Embedding of `SpectralIndices.__init__`: validates the method, rejects the
(sentinel-2, average) combination, looks the sensor up in the catalog
(`get_sensor_bands`; an unknown sensor makes `get_centerband` raise), and
derives the centerband map once at construction.  A raised `ValueError`
is modelled as `Except.error`. -/
def SpectralIndices.init (sensor : String) (method : String) :
    Except String SpectralIndices :=
  if method ≠ "centerband" ∧ method ≠ "average" then
    .error "Method must be either centerband or average."
  else if sensor = "sentinel-2" ∧ method = "average" then
    .error "Sentinel-2 only works with centerband method"
  else
    match List.lookup sensor sensorsTable with
    | none => .error ("Sensor " ++ sensor ++ " not found in database.")
    | some bands => .ok ⟨sensor, method, bands, get_centerband sensor bands⟩

/-- Whether an `Except` result is an error (a raised Python exception). -/
def isErr {α : Type} : Except String α → Bool
  | .error _ => true
  | .ok _ => false

/-- A reflectance table: `columns` are the integer wavelength labels,
`rows` the per-sample value lists (each of length `columns.length` for a
well-formed table). -/
structure DataFrame where
  columns : List ℕ
  rows : List (List ℚ)
deriving DecidableEq, Repr

/-- Column selection `df[w]` for one row: the value in the column labelled `w` (pandas
column selection by label). -/
def colVal (labels : List ℕ) (w : ℕ) (row : List ℚ) : FV :=
  match List.lookup w (labels.zip row) with
  | some v => FV.fin v
  | none => FV.nan

/-- One row of
`df.loc[:, (df.columns >= lo) & (df.columns <= hi)].mean(axis=1)`:
the mean over the values in columns whose label lies in `[lo, hi]`.
pandas returns NaN for the mean over an empty column selection. -/
def meanRow (labels : List ℕ) (lo hi : ℕ) (row : List ℚ) : FV :=
  let sel := (labels.zip row).filterMap
    (fun p => if lo ≤ p.1 ∧ p.1 ≤ hi then some p.2 else none)
  if sel = [] then FV.nan else FV.fin (sel.sum / sel.length)

/-- Embedding of `SpectralIndices._get_band_values`.  A pandas `KeyError` (unknown band
name, or a centerband wavelength absent from the table's columns) and the
`TypeError` Python would raise on subscripting a discrete band in the
average branch are modelled as `Except.error`; the latter two `error`
arms are unreachable for objects built by `init`. -/
def get_band_values (si : SpectralIndices) (df : DataFrame) (bandName : String) :
    Except String (List FV) :=
  if si.method = "centerband" then
    match List.lookup bandName si.centerbands with
    | none => .error ("KeyError: " ++ bandName)
    | some w =>
        if w ∈ df.columns then
          .ok (df.rows.map (fun row => colVal df.columns w row))
        else .error "KeyError: centerband wavelength is not a column"
  else if si.method = "average" then
    match List.lookup bandName si.bands with
    | none => .error ("KeyError: " ++ bandName)
    | some (.interval lo hi) =>
        .ok (df.rows.map (fun row => meanRow df.columns lo hi row))
    | some (.discrete _) => .error "TypeError: int is not subscriptable"
  else .error "unreachable: method was validated at construction"

/-- The epsilon the index formulas add to their denominators. -/
def EPS : ℚ := 1 / 10 ^ 10

/-- The per-sample NDVI arithmetic of `SpectralIndices.ndvi`,
`(nir - red) / (nir + red + 1e-10)`, on the float model. -/
def ndviFV (nir red : FV) : FV := (nir - red) / (nir + red + FV.fin EPS)

/-- The real value of the NDVI formula on finite inputs, used to state the
bound claims: `(nir - red) / (nir + red + EPS)` over the rationals. -/
def ndviQ (nir red : ℚ) : ℚ := (nir - red) / (nir + red + EPS)

/-- The per-sample MSAVI arithmetic of `SpectralIndices.msavi`,
`(2*nir + 1 - np.sqrt((2*nir + 1)**2 - 8*(nir - red))) / 2`
(the square written as a self-product), on the float model. -/
def msaviFV (nir red : FV) : FV :=
  (FV.fin 2 * nir + FV.fin 1
    - FV.sqrtv ((FV.fin 2 * nir + FV.fin 1) * (FV.fin 2 * nir + FV.fin 1)
        - FV.fin 8 * (nir - red))) / FV.fin 2

/-- The per-sample GCI arithmetic of `SpectralIndices.gci`,
`(nir / green) - 1`: plain division, no epsilon guard. -/
def gciFV (nir green : FV) : FV := nir / green - FV.fin 1

/-- Embedding of `SpectralIndices.ndvi`: resolve the (selectable) NIR band and the red
band and apply the formula elementwise across samples. -/
def SpectralIndices.ndvi (si : SpectralIndices) (df : DataFrame)
    (nir : String := "nir") : Except String (List FV) := do
  let nirV ← get_band_values si df nir
  let redV ← get_band_values si df "red"
  return List.zipWith ndviFV nirV redV

/-- Embedding of `SpectralIndices.msavi`: resolve NIR and red and apply the formula
elementwise. -/
def SpectralIndices.msavi (si : SpectralIndices) (df : DataFrame) :
    Except String (List FV) := do
  let nirV ← get_band_values si df "nir"
  let redV ← get_band_values si df "red"
  return List.zipWith msaviFV nirV redV

/-- Embedding of `SpectralIndices.gci`: resolve NIR and green and apply the formula
elementwise. -/
def SpectralIndices.gci (si : SpectralIndices) (df : DataFrame) :
    Except String (List FV) := do
  let nirV ← get_band_values si df "nir"
  let greenV ← get_band_values si df "green"
  return List.zipWith gciFV nirV greenV

/-! ## `spectral_processing.py` -/

/-- One input file of `SpectralProcessing.get_data`: `none` models a file
whose `open` raises `FileNotFoundError` (the code prints a message and
continues with the next file); `some ls` gives, for each line of the file,
the float that `float(line.rstrip().split(tab)[1])` would parse.  Lines
with index below the header length are skipped before parsing, so their
entries never matter. -/
abbrev SedFile := Option (List ℚ)

/-- The flat `data` list accumulated by `get_data`: for each present file,
in list order, the parsed values of the lines with index `≥ n`. -/
def collect (files : List SedFile) (n : ℕ) : List ℚ :=
  ((files.filterMap id).map (List.drop n)).flatten

/-- numpy rounding to 3 decimal places (`.round(3)`): ties-to-even on the
scaled value.  (On actual floats the scaling can fall on either side of an
exact tie; no claim depends on the rounded values, only on the shape.) -/
def round3 (x : ℚ) : ℚ :=
  let y := 1000 * x
  let f : ℤ := ⌊y⌋
  let r := y - f
  (if r < 1/2 then (f : ℚ) else if 1/2 < r then (f : ℚ) + 1
   else if 2 ∣ f then (f : ℚ) else (f : ℚ) + 1) / 1000

/-- Reshape `np.reshape(data, (q, c))`: `q` rows of `c` consecutive values. -/
def reshapeRows : ℕ → ℕ → List ℚ → List (List ℚ)
  | 0, _, _ => []
  | q + 1, c, data => data.take c :: reshapeRows q c (data.drop c)

/-- Outcome of `SpectralProcessing.get_data`: `noData` is the
`return None` taken when no values were accumulated; `shapeError` is the
`ValueError` numpy raises when the flat length is not `q * 2151`;
`table` is the returned rounded matrix. -/
inductive GetDataResult where
  | noData
  | shapeError
  | table (rows : List (List ℚ))
deriving DecidableEq, Repr

/-- Whether `get_data` returned a table. -/
def GetDataResult.isTable : GetDataResult → Bool
  | .table _ => true
  | _ => false

/-- The table `get_data` builds when the shape check passes:
`np.reshape(data, (int(len(data)/2151), 2151)).round(3)`. -/
def parsedTable (files : List SedFile) (n : ℕ) : List (List ℚ) :=
  let data := collect files n
  (reshapeRows (data.length / 2151) 2151 data).map (List.map round3)

/-- Embedding of `SpectralProcessing.get_data`: skip `n` header lines per file, keep the
second tab field of every remaining line as a float, accumulate across
files (missing files are reported and skipped), return `None` when nothing
was accumulated, otherwise reshape into `int(len(data)/2151)` rows of 2151
columns — `int` truncates the float quotient, which for these magnitudes
is the floor — and round to 3 decimals.  numpy raises a `ValueError` when
`int(len(data)/2151) * 2151 ≠ len(data)`. -/
def get_data (files : List SedFile) (n : ℕ) : GetDataResult :=
  let data := collect files n
  if data = [] then .noData
  else if (data.length / 2151) * 2151 = data.length then
    .table (parsedTable files n)
  else .shapeError

/-! ## `smooth_data` / `scipy.signal.savgol_filter`

`SpectralProcessing.smooth_data` delegates entirely to
`scipy.signal.savgol_filter(data, window_length, polyorder, deriv=0,
delta=1.0, axis=-1, mode="interp", cval=0.0)`, which is external to the
repository.  The definitions below are modelled from the spec: a local
least-squares polynomial-regression smoothing filter applied independently
along each row, with `interp`-mode boundary handling (fit the polynomial
over the first/last full window and evaluate it at the edge positions),
zero-order derivative, and the validation contract that the window length
must be odd and greater than the polynomial order. -/

/-- Dot product of two coefficient lists. -/
def dotL (a b : List ℚ) : ℚ := (List.zipWith (fun x y => x * y) a b).sum

/-- First row with a nonzero leading entry, and the remaining rows. -/
def findPivot : List (List ℚ) → Option (List ℚ × List (List ℚ))
  | [] => none
  | r :: rest =>
      if r.headD 0 ≠ 0 then some (r, rest)
      else (findPivot rest).map (fun p => (p.1, r :: p.2))

/-- Gaussian elimination on an augmented system of `k` unknowns (each row:
`k` coefficients followed by the right-hand side).  Returns `none` when no
pivot exists (singular system). -/
def elimSolve : ℕ → List (List ℚ) → Option (List ℚ)
  | 0, _ => some []
  | k + 1, rows => do
      let pr ← findPivot rows
      let a := pr.1.headD 1
      let ptail := pr.1.tail.map (fun x => x / a)
      let rest := pr.2.map
        (fun r => List.zipWith (fun x y => x - r.headD 0 * y) r.tail ptail)
      let sol ← elimSolve k rest
      let rhs := ptail.getLastD 0
      some ((rhs - dotL ptail.dropLast sol) :: sol)

/-- Modelled from the spec: the least-squares polynomial fit of degree `d`
underlying both the sliding Savitzky–Golay window and the `interp` edge
handling of the external `scipy.signal.savgol_filter`.  Coefficients
`c 0 .. c d` of `p x = sum (c j) * x ^ j` solving the normal equations;
the zero polynomial on a singular (under-determined) window, a degenerate
case no claim depends on. -/
def polyfit (d : ℕ) (pts : List (ℚ × ℚ)) : List ℚ :=
  let xs := pts.map Prod.fst
  let row := fun j =>
    ((List.range (d + 1)).map (fun k => (xs.map (fun x => x ^ (j + k))).sum))
      ++ [(pts.map (fun p => p.1 ^ j * p.2)).sum]
  let aug := (List.range (d + 1)).map row
  (elimSolve (d + 1) aug).getD (List.replicate (d + 1) 0)

/-- Evaluate a coefficient list as a polynomial at `x`. -/
def polyEval (c : List ℚ) (x : ℚ) : ℚ :=
  (c.enum.map (fun p => p.2 * x ^ p.1)).sum

/-- The window of `w` points starting at index `start` of a row, as
(position, value) pairs. -/
def windowAt (row : List ℚ) (start w : ℕ) : List (ℚ × ℚ) :=
  ((row.drop start).take w).enum.map (fun p => (((start + p.1 : ℕ) : ℚ), p.2))

/-- Modelled from the spec: the smoothed value at position `i` of a row —
the degree-`p` least-squares fit over the window centred at `i` evaluated
at `i`, with `interp` boundary handling (edge positions use the fit over
the first/last full window). -/
def sgPoint (p w : ℕ) (row : List ℚ) (i : ℕ) : ℚ :=
  let m := row.length
  let half := w / 2
  let start := if i < half then 0 else if m ≤ i + half then m - w else i - half
  polyEval (polyfit p (windowAt row start w)) (i : ℚ)

/-- One smoothed row. -/
def sgRow (p w : ℕ) (row : List ℚ) : List ℚ :=
  (List.range row.length).map (fun i => sgPoint p w row i)

/-- The smoothed table. -/
def sgTable (data : List (List ℚ)) (w p : ℕ) : List (List ℚ) :=
  data.map (fun row => sgRow p w row)

/-- Embedding of `SpectralProcessing.smooth_data`, with `scipy.signal.savgol_filter`
modelled from the spec (see above): validation first — the window length
must be odd and greater than the polynomial order, a violated contract
raises (`Except.error`) — then row-wise smoothing preserving the shape. -/
def smooth_data (data : List (List ℚ)) (window_length polyorder : ℕ) :
    Except String (List (List ℚ)) :=
  if window_length % 2 ≠ 1 then
    .error "window_length must be odd"
  else if ¬ polyorder < window_length then
    .error "polyorder must be less than window_length"
  else
    .ok (sgTable data window_length polyorder)

/-! ## Auxiliary definitions used by the statements -/

/-- The specification's description of `average`-policy resolution for one
row: the arithmetic mean of the values of the columns whose wavelength
label lies in the closed interval `[lo, hi]` (NaN when none does). -/
def avgSpec (labels : List ℕ) (lo hi : ℕ) (row : List ℚ) : FV :=
  let sel := ((labels.zip row).filter
    (fun p => decide (lo ≤ p.1 ∧ p.1 ≤ hi))).map Prod.snd
  if sel = [] then FV.nan else FV.fin (sel.sum / sel.length)

/-- The object `SpectralIndices("general", method="centerband")` constructs. -/
def generalCenterSI : SpectralIndices :=
  ⟨"general", "centerband",
   [("blue", .interval 450 520), ("green", .interval 521 600),
    ("red", .interval 601 690), ("nir", .interval 700 800)],
   [("blue", 485), ("green", 560), ("red", 645), ("nir", 750)]⟩

/-- The object `SpectralIndices("general", method="average")` constructs. -/
def generalAvgSI : SpectralIndices :=
  ⟨"general", "average",
   [("blue", .interval 450 520), ("green", .interval 521 600),
    ("red", .interval 601 690), ("nir", .interval 700 800)],
   [("blue", 485), ("green", 560), ("red", 645), ("nir", 750)]⟩

/-! ## Helper lemmas -/

@[simp] theorem collect_nil (n : ℕ) : collect [] n = [] := rfl

@[simp] theorem collect_cons_none (fs : List SedFile) (n : ℕ) :
    collect (none :: fs) n = collect fs n := by
  simp [collect]

@[simp] theorem collect_cons_some (l : List ℚ) (fs : List SedFile) (n : ℕ) :
    collect (some l :: fs) n = List.drop n l ++ collect fs n := by
  simp [collect]

theorem collect_length (files : List SedFile) (n : ℕ)
    (h : ∀ f ∈ files, ∃ l, f = some l ∧ (List.drop n l).length = 2151) :
    (collect files n).length = 2151 * files.length := by
  induction files with
  | nil => rfl
  | cons f fs ih =>
      obtain ⟨l, rfl, hl⟩ := h f (by simp)
      have hrest := ih (fun g hg => h g (by simp [hg]))
      rw [collect_cons_some, List.length_append, hl, hrest, List.length_cons]
      ring

theorem reshapeRows_length (q c : ℕ) (data : List ℚ) :
    (reshapeRows q c data).length = q := by
  induction q generalizing data with
  | zero => rfl
  | succ q ih => simp [reshapeRows, ih]

theorem reshapeRows_row_length (q c : ℕ) (data : List ℚ)
    (h : data.length = q * c) :
    ∀ r ∈ reshapeRows q c data, r.length = c := by
  induction q generalizing data with
  | zero => simp [reshapeRows]
  | succ q ih =>
      intro r hr
      simp [reshapeRows] at hr
      rcases hr with rfl | hr
      · have : c ≤ data.length := by
          rw [h, Nat.succ_mul]; exact Nat.le_add_left c (q * c)
        simp [List.length_take, Nat.min_eq_left this]
      · exact ih (data.drop c) (by simp [h, Nat.succ_mul]) r hr

theorem filterMap_if_eq_filter_map (l : List (ℕ × ℚ)) (lo hi : ℕ) :
    l.filterMap (fun p => if lo ≤ p.1 ∧ p.1 ≤ hi then some p.2 else none)
      = (l.filter (fun p => decide (lo ≤ p.1 ∧ p.1 ≤ hi))).map Prod.snd := by
  induction l with
  | nil => rfl
  | cons a t ih =>
      by_cases hp : lo ≤ a.1 ∧ a.1 ≤ hi <;> simp [hp, ih]

theorem meanRow_eq_avgSpec (labels : List ℕ) (lo hi : ℕ) (row : List ℚ) :
    meanRow labels lo hi row = avgSpec labels lo hi row := by
  unfold meanRow avgSpec
  rw [filterMap_if_eq_filter_map]

theorem meanRow_nan (labels : List ℕ) (lo hi : ℕ) (row : List ℚ)
    (h : ∀ c ∈ labels, ¬(lo ≤ c ∧ c ≤ hi)) :
    meanRow labels lo hi row = FV.nan := by
  unfold meanRow
  have hsel : (labels.zip row).filterMap
      (fun p => if lo ≤ p.1 ∧ p.1 ≤ hi then some p.2 else none) = [] := by
    rw [List.filterMap_eq_nil_iff]
    intro p hp
    have hc : p.1 ∈ labels := (List.of_mem_zip hp).1
    simp [h p.1 hc]
  simp [hsel]

/-! ## Claim theorems -/

/-- C3: constructing the resolver with the combination
(sensor = "sentinel-2", policy = "average") always fails with a
configuration error at construction time (before any band resolution or
formula evaluation — `init` returns, it never yields an object), and
constructing it with any policy value other than "centerband" or
"average" likewise fails at construction time, for every sensor. -/
theorem init_rejects_sentinel2_average_and_unknown_method :
    isErr (SpectralIndices.init "sentinel-2" "average") = true
  ∧ ∀ sensor method : String, method ≠ "centerband" → method ≠ "average" →
      isErr (SpectralIndices.init sensor method) = true := by
  constructor
  · rfl
  · intro sensor method h1 h2
    unfold SpectralIndices.init
    rw [if_pos ⟨h1, h2⟩]
    rfl

/-- Witness for C3: the policy string "foo" is rejected for the sensor
"general". -/
theorem init_rejects_unknown_method_witness :
    isErr (SpectralIndices.init "general" "foo") = true :=
  init_rejects_sentinel2_average_and_unknown_method.2 "general" "foo"
    (by decide) (by decide)

/-- C6: for nonnegative finite NIR and RED inputs, not both zero, the NDVI
formula `(NIR - RED) / (NIR + RED + 1e-10)` evaluates to a finite value
that lies strictly between -1 and 1; and for every positive `x`, NDVI with
`nir = x` and `red = x` is exactly 0.  (The strict bounds in fact hold for
all nonnegative inputs, the excluded epsilon-perturbed double-zero case
included.) -/
theorem ndvi_bounded (nir red : ℚ) (hn : 0 ≤ nir) (hr : 0 ≤ red)
    (_hnz : ¬(nir = 0 ∧ red = 0)) :
    ndviFV (.fin nir) (.fin red) = .fin (ndviQ nir red)
  ∧ -1 < ndviQ nir red ∧ ndviQ nir red < 1
  ∧ ∀ x : ℚ, 0 < x → ndviFV (.fin x) (.fin x) = .fin 0 := by
  have heps : (0 : ℚ) < EPS := by norm_num [EPS]
  have hd : (0 : ℚ) < nir + red + EPS := by linarith
  refine ⟨?_, ?_, ?_, ?_⟩
  · show (FV.fin nir - FV.fin red) / (FV.fin nir + FV.fin red + FV.fin EPS)
      = FV.fin (ndviQ nir red)
    rw [FV.fin_sub_fin, FV.fin_add_fin, FV.fin_add_fin, FV.fin_div_fin _ _ hd.ne']
    rw [ndviQ, sub_eq_add_neg]
  · rw [ndviQ, lt_div_iff₀ hd]
    linarith
  · rw [ndviQ, div_lt_one hd]
    linarith
  · intro x hx
    have hdx : (0 : ℚ) < x + x + EPS := by linarith
    show (FV.fin x - FV.fin x) / (FV.fin x + FV.fin x + FV.fin EPS) = FV.fin 0
    rw [FV.fin_sub_fin, FV.fin_add_fin, FV.fin_add_fin, FV.fin_div_fin _ _ hdx.ne']
    norm_num

/-- Witness for C6 at `nir = 1, red = 0` and `x = 2`. -/
theorem ndvi_bounded_witness :
    (ndviFV (.fin 1) (.fin 0) = .fin (ndviQ 1 0)
      ∧ -1 < ndviQ 1 0 ∧ ndviQ 1 0 < 1)
  ∧ ndviFV (.fin 2) (.fin 2) = .fin 0 := by
  have h := ndvi_bounded 1 0 (by norm_num) (by norm_num) (by norm_num)
  exact ⟨⟨h.1, h.2.1, h.2.2.1⟩, h.2.2.2 2 (by norm_num)⟩

/-- C7: the numerical edge cases of the index formulas are not raised as
errors.  MSAVI with a negative radicand evaluates to NaN, and GCI with
GREEN exactly zero evaluates to an infinite or NaN value (no epsilon is
added to its denominator).  Both formulas are total functions on the
float-value model: evaluation always returns a value, mirroring numpy,
which warns but never raises on these operations. -/
theorem msavi_gci_ieee_edge_cases (nir red : ℚ)
    (h : (2 * nir + 1) * (2 * nir + 1) - 8 * (nir - red) < 0) :
    msaviFV (.fin nir) (.fin red) = FV.nan
  ∧ ∀ g : ℚ, (gciFV (.fin g) (.fin 0)).isFinite = false := by
  constructor
  · unfold msaviFV
    rw [FV.fin_mul_fin, FV.fin_add_fin, FV.fin_sub_fin, FV.fin_mul_fin, FV.fin_mul_fin,
      FV.fin_sub_fin]
    have hX : (2 * nir + 1) * (2 * nir + 1) + -(8 * (nir + -red)) < 0 := by
      rw [← sub_eq_add_neg, ← sub_eq_add_neg]
      exact h
    rw [show FV.sqrtv (FV.fin ((2 * nir + 1) * (2 * nir + 1)
          + -(8 * (nir + -red)))) = FV.nan by simp [FV.sqrtv, hX]]
    simp
  · intro g
    rcases lt_trichotomy g 0 with hg | hg | hg
    · have h1 : FV.fin g / FV.fin 0 = FV.ninf := by
        show FV.div _ _ = _
        simp [FV.div, hg.ne, not_lt.mpr hg.le]
      simp [gciFV, h1]
      rfl
    · subst hg
      have h1 : FV.fin 0 / FV.fin 0 = FV.nan := by
        show FV.div _ _ = _
        simp [FV.div]
      simp [gciFV, h1]
      rfl
    · have h1 : FV.fin g / FV.fin 0 = FV.pinf := by
        show FV.div _ _ = _
        simp [FV.div, hg.ne', hg]
      simp [gciFV, h1]
      rfl

/-- Witness for C7 at `nir = 0, red = -1` (radicand `1 - 8 = -7 < 0`, the
pathological extreme-noise case) and `g = 1`. -/
theorem msavi_gci_ieee_edge_cases_witness :
    msaviFV (.fin 0) (.fin (-1)) = FV.nan
  ∧ (gciFV (.fin 1) (.fin 0)).isFinite = false := by
  have h := msavi_gci_ieee_edge_cases 0 (-1) (by norm_num)
  exact ⟨h.1, h.2 1⟩

/-- C8: a missing input file is not fatal to the batch: `get_data` on a
file list starting with a missing file equals `get_data` on the rest, and
in general `get_data` on any file list equals `get_data` on the sublist of
the files that could be opened — only successfully parsed files contribute
rows.  (The per-file error message printed for a missing file is console
output, outside the value model.) -/
theorem missing_files_skipped (files : List SedFile) (n : ℕ) :
    get_data (none :: files) n = get_data files n
  ∧ get_data files n = get_data ((files.filterMap id).map some) n := by
  have hc : collect ((files.filterMap id).map some) n = collect files n := by
    unfold collect
    rw [List.filterMap_map]
    simp
  constructor
  · unfold get_data parsedTable
    rw [collect_cons_none]
  · unfold get_data parsedTable
    rw [hc]

/-- C10: a batch that yields zero parsed values in total — the file list
is empty, every listed file is missing, or every present file contributes
no data lines after the header skip — returns the no-data outcome
(`None`), not an empty table and not a shape error. -/
theorem empty_batch_returns_none (files : List SedFile) (n : ℕ)
    (h : ∀ f ∈ files, ∀ l, f = some l → List.drop n l = []) :
    get_data files n = .noData := by
  have hc : collect files n = [] := by
    induction files with
    | nil => rfl
    | cons f fs ih =>
        cases f with
        | none =>
            rw [collect_cons_none]
            exact ih (fun g hg => h g (by simp [hg]))
        | some l =>
            rw [collect_cons_some, h (some l) (by simp) l rfl]
            exact ih (fun g hg => h g (by simp [hg]))
  unfold get_data
  rw [hc]
  rfl

/-- Witness for C10: one missing file plus one file shorter than the
header length. -/
theorem empty_batch_returns_none_witness :
    get_data [none, some [(1 : ℚ), 2]] 27 = .noData := by
  refine empty_batch_returns_none _ 27 ?_
  intro f hf l hfl
  rcases (by simpa using hf : f = none ∨ f = some [(1 : ℚ), 2]) with rfl | rfl
  · exact absurd hfl (by simp)
  · cases hfl
    rfl

/-- C1: under the `average` policy, resolving a band whose definition is
the closed interval `[lo, hi]` returns, for each row of the reflectance
table, the arithmetic mean of the values in the columns whose wavelength
label lies in `[lo, hi]` (inclusive bounds); see the witness for the
two-column instance whose result is `(v1 + v2) / 2`. -/
theorem average_policy_resolves_to_interval_mean (si : SpectralIndices)
    (df : DataFrame) (b : String) (lo hi : ℕ)
    (hm : si.method = "average")
    (hb : List.lookup b si.bands = some (.interval lo hi)) :
    get_band_values si df b
      = .ok (df.rows.map (fun row => avgSpec df.columns lo hi row)) := by
  unfold get_band_values
  rw [if_neg (by rw [hm]; decide), if_pos hm, hb]
  simp only [meanRow_eq_avgSpec]

/-- Witness for C1: sensor "general" (red band `[601, 690]`), a table whose
only in-range columns are one at exactly 601 with value 1 and one at
exactly 690 with value 2 (plus an out-of-range column at 300): the result
for the single row is `(1 + 2) / 2`. -/
theorem average_policy_interval_mean_witness :
    get_band_values generalAvgSI ⟨[300, 601, 690], [[99, 1, 2]]⟩ "red"
      = .ok [FV.fin ((1 + 2) / 2)] := by
  rw [average_policy_resolves_to_interval_mean generalAvgSI
    ⟨[300, 601, 690], [[99, 1, 2]]⟩ "red" 601 690 rfl (by decide)]
  norm_num [avgSpec]
  intro h
  exact absurd h (by decide)

/-- C2: for an object constructed by `init`, the centerband map is derived
at construction from the band set; every interval band `(lo, hi)` of a
sensor other than Sentinel-2 has the entry `floor((lo + hi) / 2)`, every
discrete band of Sentinel-2 has its wavelength unchanged, and the map has
exactly one entry per band, in band order. -/
theorem centerband_map_from_construction (s m : String)
    (si : SpectralIndices) (hinit : SpectralIndices.init s m = .ok si) :
    si.centerbands = get_centerband s si.bands
  ∧ (s ≠ "sentinel-2" → ∀ b lo hi, (b, BandDef.interval lo hi) ∈ si.bands →
      (b, (lo + hi) / 2) ∈ si.centerbands)
  ∧ (s = "sentinel-2" → ∀ b w, (b, BandDef.discrete w) ∈ si.bands →
      (b, w) ∈ si.centerbands)
  ∧ si.centerbands.map Prod.fst = si.bands.map Prod.fst := by
  unfold SpectralIndices.init at hinit
  split at hinit
  · exact absurd hinit (by simp)
  · split at hinit
    · exact absurd hinit (by simp)
    · split at hinit
      · exact absurd hinit (by simp)
      · rename_i bands heq
        have hsi : si = ⟨s, m, bands, get_centerband s bands⟩ :=
          (Except.ok.injEq _ _ ▸ hinit).symm
        subst hsi
        refine ⟨rfl, ?_, ?_, ?_⟩
        · intro hs b lo hi hmem
          show _ ∈ get_centerband s bands
          unfold get_centerband
          rw [if_neg hs]
          simpa using List.mem_map_of_mem
            (fun p => (p.1, midpoint p.2)) hmem
        · intro hs b w hmem
          show _ ∈ get_centerband s bands
          unfold get_centerband
          rw [if_pos hs]
          simpa using List.mem_map_of_mem
            (fun p => (p.1, discreteVal p.2)) hmem
        · show (get_centerband s bands).map Prod.fst = bands.map Prod.fst
          unfold get_centerband
          split <;> (rw [List.map_map]; rfl)

/-- Witness for C2: constructing with sensor "general" and method
"centerband" puts `("red", (601 + 690) / 2)`, i.e. `("red", 645)`, in the
centerband map. -/
theorem centerband_map_witness :
    ("red", (601 + 690) / 2) ∈ generalCenterSI.centerbands :=
  (centerband_map_from_construction "general" "centerband" generalCenterSI
    (by rfl)).2.1 (by decide) "red" 601 690 (by decide)

/-- Counterexample to C4 as stated: under the `average` policy with sensor
"general" and band "red" (interval `[601, 690]`), a table whose only
column is at wavelength 100 — no column in range — does NOT fail with a
ColumnNotFound error: resolution succeeds and returns NaN for the row
(pandas takes the mean over an empty column selection). -/
theorem average_no_columns_counterexample :
    isErr (get_band_values generalAvgSI ⟨[100], [[5]]⟩ "red") = false
  ∧ get_band_values generalAvgSI ⟨[100], [[5]]⟩ "red" = .ok [FV.nan] := by
  constructor <;> rfl

/-- C4 (amended): under the `average` policy, if no column of the table
has a wavelength label inside the band's closed interval `[lo, hi]`,
resolving the band does not raise: it silently returns a NaN value for
every row, the pandas mean over an empty column selection. -/
theorem average_no_columns_yields_nan (si : SpectralIndices)
    (df : DataFrame) (b : String) (lo hi : ℕ)
    (hm : si.method = "average")
    (hb : List.lookup b si.bands = some (.interval lo hi))
    (hno : ∀ c ∈ df.columns, ¬(lo ≤ c ∧ c ≤ hi)) :
    get_band_values si df b = .ok (df.rows.map (fun _ => FV.nan)) := by
  unfold get_band_values
  rw [if_neg (by rw [hm]; decide), if_pos hm, hb]
  have : ∀ row, meanRow df.columns lo hi row = FV.nan :=
    fun row => meanRow_nan df.columns lo hi row hno
  simp only [this]

/-- Witness for the amended C4: a two-row table with a single out-of-range
column yields NaN for both rows. -/
theorem average_no_columns_yields_nan_witness :
    get_band_values generalAvgSI ⟨[50], [[7], [8]]⟩ "red"
      = .ok [FV.nan, FV.nan] := by
  have h := average_no_columns_yields_nan generalAvgSI ⟨[50], [[7], [8]]⟩
    "red" 601 690 rfl (by decide) (by decide)
  simpa using h

/-- Counterexample to C5 as stated: the empty file list satisfies "each
file contributes exactly 2151 parsed data values" vacuously, yet
`get_data` returns the no-data outcome (`None`), not a table with
`rowCount == fileCount == 0`. -/
theorem get_data_empty_list_counterexample :
    (get_data ([] : List SedFile) 27).isTable = false
  ∧ get_data ([] : List SedFile) 27 = .noData := ⟨rfl, rfl⟩

/-- C5 (amended): for every NONEMPTY list of input files in which each
file contributes exactly 2151 parsed data values after skipping the
header lines, `get_data` returns a table with one row per file and 2151
columns per row; and for every batch whose total parsed value count is
positive but not an exact multiple of 2151, it raises a shape error
instead of returning a table. -/
theorem get_data_shape (files : List SedFile) (n : ℕ) :
    (files ≠ [] →
      (∀ f ∈ files, ∃ l, f = some l ∧ (List.drop n l).length = 2151) →
      get_data files n = .table (parsedTable files n)
      ∧ (parsedTable files n).length = files.length
      ∧ ∀ r ∈ parsedTable files n, r.length = 2151)
  ∧ (collect files n ≠ [] → ¬ (2151 ∣ (collect files n).length) →
      get_data files n = .shapeError) := by
  constructor
  · intro hne hall
    have hlen : (collect files n).length = 2151 * files.length :=
      collect_length files n hall
    have hfpos : 0 < files.length := List.length_pos.mpr hne
    have hdpos : 0 < (collect files n).length := by
      rw [hlen]; positivity
    have hcne : collect files n ≠ [] := by
      intro hc; rw [hc] at hdpos; exact absurd hdpos (by simp)
    have hq : (collect files n).length / 2151 = files.length := by
      rw [hlen]; exact Nat.mul_div_cancel_left _ (by norm_num)
    have hmul : ((collect files n).length / 2151) * 2151
        = (collect files n).length := by
      rw [hq, hlen]; ring
    refine ⟨?_, ?_, ?_⟩
    · unfold get_data
      rw [if_neg hcne, if_pos hmul]
    · unfold parsedTable
      rw [List.length_map, reshapeRows_length, hq]
    · intro r hr
      unfold parsedTable at hr
      rw [List.mem_map] at hr
      obtain ⟨r0, hr0, rfl⟩ := hr
      rw [List.length_map]
      exact reshapeRows_row_length _ 2151 _ hmul.symm r0 hr0
  · intro hcne hndvd
    unfold get_data
    rw [if_neg hcne, if_neg ?_]
    intro hmul
    exact hndvd ⟨(collect files n).length / 2151, by rw [Nat.mul_comm]; exact hmul.symm⟩

/-- Witness for C5: one file with exactly 2151 data values (header length
0) yields a 1-row table; one file with a single data value (total 1, not
a multiple of 2151) yields the shape error. -/
theorem get_data_shape_witness :
    (get_data [some (List.replicate 2151 (0 : ℚ))] 0
        = .table (parsedTable [some (List.replicate 2151 (0 : ℚ))] 0)
      ∧ (parsedTable [some (List.replicate 2151 (0 : ℚ))] 0).length = 1)
  ∧ get_data [some [(0 : ℚ)]] 0 = .shapeError := by
  have h1 := (get_data_shape [some (List.replicate 2151 (0 : ℚ))] 0).1
    (List.cons_ne_nil _ _)
    (by
      intro f hf
      rw [List.mem_singleton] at hf
      refine ⟨List.replicate 2151 (0 : ℚ), hf, ?_⟩
      rw [List.drop_zero, List.length_replicate])
  have h2 := (get_data_shape [some [(0 : ℚ)]] 0).2
    (by
      rw [collect_cons_some, List.drop_zero, collect_nil, List.append_nil]
      exact List.cons_ne_nil _ _)
    (by
      rw [collect_cons_some, List.drop_zero, collect_nil, List.append_nil]
      decide)
  exact ⟨⟨h1.1, h1.2.1⟩, h2⟩

/-- C9: `smooth_data` with an even window length, or with a window length
not exceeding the polynomial order, fails with a configuration error for
every input table; for every valid combination (odd window length greater
than the polynomial order) it returns a smoothed table with exactly the
shape of the input (same row count, same length for every row).
The wrapped `scipy.signal.savgol_filter` is external to the repository and
is modelled from the spec (see `sgPoint`). -/
theorem smooth_validation_and_shape (data : List (List ℚ)) (w p : ℕ) :
    ((w % 2 = 0 ∨ w ≤ p) → isErr (smooth_data data w p) = true)
  ∧ (w % 2 = 1 → p < w →
      smooth_data data w p = .ok (sgTable data w p)
      ∧ (sgTable data w p).length = data.length
      ∧ (sgTable data w p).map List.length = data.map List.length) := by
  constructor
  · intro h
    unfold smooth_data
    rcases h with h | h
    · rw [if_pos (by omega)]
      rfl
    · by_cases hodd : w % 2 = 1
      · rw [if_neg (by omega), if_pos (by omega)]
        rfl
      · rw [if_pos (by omega)]
        rfl
  · intro hodd hlt
    refine ⟨?_, ?_, ?_⟩
    · unfold smooth_data
      rw [if_neg (by omega), if_neg (by omega)]
    · unfold sgTable
      exact List.length_map _ _
    · unfold sgTable sgRow
      rw [List.map_map]
      refine List.map_congr_left ?_
      intro row _
      simp

/-- Witness for C9: window 4 (even) and window 3 with order 3 are
rejected; window 3 with order 1 smooths a 1×3 table to a 1×3 table. -/
theorem smooth_validation_and_shape_witness :
    isErr (smooth_data [[(1 : ℚ), 2, 3]] 4 2) = true
  ∧ isErr (smooth_data [[(1 : ℚ), 2, 3]] 3 3) = true
  ∧ smooth_data [[(1 : ℚ), 2, 3]] 3 1 = .ok (sgTable [[(1 : ℚ), 2, 3]] 3 1)
  ∧ (sgTable [[(1 : ℚ), 2, 3]] 3 1).map List.length = [3] := by
  have he := (smooth_validation_and_shape [[(1 : ℚ), 2, 3]] 4 2).1
    (Or.inl rfl)
  have ho := (smooth_validation_and_shape [[(1 : ℚ), 2, 3]] 3 3).1
    (Or.inr (by norm_num))
  have hv := (smooth_validation_and_shape [[(1 : ℚ), 2, 3]] 3 1).2
    rfl (by norm_num)
  refine ⟨he, ho, hv.1, ?_⟩
  rw [hv.2.2]
  rfl

end Spectevol
